import Mathlib

/-!
Verification development for the `modelcules` chemical-identifier resolution
engine (`src/utils/identifierLookup.ts` and the application layer `App.tsx`).

The TypeScript code is shallowly embedded: strings are Lean `String`
(operations are modelled on the ASCII fragment the engine actually handles;
JS `toLowerCase`/`toUpperCase` agree with `Char.toLower`/`Char.toUpper`
there), JS timestamps are `Int` milliseconds, the remote databases are an
oracle parameter `String → Nat → Except String LookupResult` giving each
(database-name, attempt-index) pair either a thrown error or a returned
result, and the `Map`-based cache is an association list threaded through
the resolution function.
-/

namespace Modelcules

/-- Characters treated as whitespace by JS `String.prototype.trim` and `\s`
(ASCII fragment: space, tab, line feed, carriage return, vertical tab,
form feed). -/
def isJsSpace (c : Char) : Bool :=
  c = ' ' || c = '\t' || c = '\n' || c = '\r' || c = '\x0b' || c = '\x0c'

/-- Drop leading and trailing JS whitespace from a character list. -/
def trimChars (l : List Char) : List Char :=
  ((l.dropWhile isJsSpace).reverse.dropWhile isJsSpace).reverse

/-- Model of JS `value.trim()`. -/
def jsTrim (s : String) : String := ⟨trimChars s.data⟩

/-- Model of JS `toLowerCase` on one character (ASCII); JS and
`Char.toLower` agree on the ASCII range. -/
def jsLowerChar (c : Char) : Char := Char.toLower c

/-- Model of JS `toUpperCase` on one character (ASCII). -/
def jsUpperChar (c : Char) : Char := Char.toUpper c

/-- Model of JS `s.toLowerCase()` (ASCII fragment). -/
def jsLower (s : String) : String := ⟨s.data.map jsLowerChar⟩

/-- Model of JS `s.toUpperCase()` (ASCII fragment). -/
def jsUpper (s : String) : String := ⟨s.data.map jsUpperChar⟩

/-- Test that `pre` is a prefix of `s` (model of JS `s.startsWith(pre)`). -/
def strStarts (pre s : String) : Bool := pre.data.isPrefixOf s.data

/-- The twelve identifier kinds: the keys of the TS `ChemicalIdentifiers`
interface (`types/molecule.ts`). -/
inductive IdKind where
  | iupacName
  | casNumber
  | chemSpider
  | echaInfoCard
  | ecNumber
  | eNumber
  | pubchemCID
  | rtecsNumber
  | unii
  | compToxDashboard
  | inchi
  | smiles
deriving DecidableEq, Repr

/-- The string a TS template literal interpolates for an identifier kind
(the property key). -/
def kindName : IdKind → String
  | .iupacName => "iupacName"
  | .casNumber => "casNumber"
  | .chemSpider => "chemSpider"
  | .echaInfoCard => "echaInfoCard"
  | .ecNumber => "ecNumber"
  | .eNumber => "eNumber"
  | .pubchemCID => "pubchemCID"
  | .rtecsNumber => "rtecsNumber"
  | .unii => "unii"
  | .compToxDashboard => "compToxDashboard"
  | .inchi => "inchi"
  | .smiles => "smiles"

/-- Model of TS `Partial<ChemicalIdentifiers>`: each field is present
(`some`) or absent (`none`). -/
structure IdentifierSet where
  iupacName : Option String := none
  casNumber : Option String := none
  chemSpider : Option String := none
  echaInfoCard : Option String := none
  ecNumber : Option String := none
  eNumber : Option String := none
  pubchemCID : Option String := none
  rtecsNumber : Option String := none
  unii : Option String := none
  compToxDashboard : Option String := none
  inchi : Option String := none
  smiles : Option String := none
deriving DecidableEq, Repr

/-- Field access `identifiers[kind]` on a partial identifier set. -/
def IdentifierSet.get (s : IdentifierSet) : IdKind → Option String
  | .iupacName => s.iupacName
  | .casNumber => s.casNumber
  | .chemSpider => s.chemSpider
  | .echaInfoCard => s.echaInfoCard
  | .ecNumber => s.ecNumber
  | .eNumber => s.eNumber
  | .pubchemCID => s.pubchemCID
  | .rtecsNumber => s.rtecsNumber
  | .unii => s.unii
  | .compToxDashboard => s.compToxDashboard
  | .inchi => s.inchi
  | .smiles => s.smiles

/-- The fields of a set, in the interface's declaration order. -/
def IdentifierSet.fieldList (s : IdentifierSet) : List (Option String) :=
  [s.iupacName, s.casNumber, s.chemSpider, s.echaInfoCard, s.ecNumber,
   s.eNumber, s.pubchemCID, s.rtecsNumber, s.unii, s.compToxDashboard,
   s.inchi, s.smiles]

/-- Model of `Object.keys(identifiers).length`: the number of present
fields. -/
def IdentifierSet.count (s : IdentifierSet) : Nat :=
  s.fieldList.countP Option.isSome

/-- JS truthiness of an optional string field: `undefined` and `""` are
falsy. -/
def truthy : Option String → Bool
  | none => false
  | some v => !(v == "")

/-- Model of the TS `IdentifierLookupResult`.  The confidence score is
modelled as a rational (the JS arithmetic `count / 8`, `+ 0.2`, `0.3`
is exact on these values). -/
structure LookupResult where
  success : Bool
  identifiers : Option IdentifierSet := none
  error : Option String := none
  source : Option String := none
  confidence : Option ℚ := none
deriving DecidableEq, Repr

/-- Model of the TS `DatabaseConfig` (the `baseUrl` plays no role in the
control flow modelled here and is kept only as a label). -/
structure DatabaseConfig where
  name : String
  baseUrl : String
  priority : Nat
  timeout : Nat
  retries : Nat
deriving DecidableEq, Repr

/-- The PubChem entry of the `DATABASES` configuration array. -/
def pubchemConfig : DatabaseConfig :=
  { name := "PubChem"
    baseUrl := "https://pubchem.ncbi.nlm.nih.gov/rest/pug"
    priority := 10
    timeout := 5000
    retries := 2 }

/-- The NCI/CACTUS entry of the `DATABASES` configuration array. -/
def nciConfig : DatabaseConfig :=
  { name := "NCI/CACTUS"
    baseUrl := "https://cactus.nci.nih.gov/chemical/structure"
    priority := 6
    timeout := 7000
    retries := 1 }

/-- The `DATABASES` configuration array, in source order. -/
def DATABASES : List DatabaseConfig := [pubchemConfig, nciConfig]

/-- All characters are decimal digits. -/
def allDigits (l : List Char) : Bool := l.all Char.isDigit

/-- Regex `/^\d+$/`. -/
def digitsPat (l : List Char) : Bool := !l.isEmpty && allDigits l

/-- Lowercase ASCII letter. -/
def isLowerAlpha (c : Char) : Bool := decide ('a' ≤ c ∧ c ≤ 'z')

/-- Uppercase ASCII letter. -/
def isUpperAlpha (c : Char) : Bool := decide ('A' ≤ c ∧ c ≤ 'Z')

/-- ASCII letter (either case). -/
def isAsciiLetter (c : Char) : Bool := isLowerAlpha c || isUpperAlpha c

/-- Regex `/^\d{2,7}-\d{2}-\d$/` (CAS registry number format). -/
def casNumberPat (l : List Char) : Bool :=
  let d1 := l.takeWhile Char.isDigit
  match l.dropWhile Char.isDigit with
  | '-' :: rest =>
    let d2 := rest.takeWhile Char.isDigit
    match rest.dropWhile Char.isDigit with
    | '-' :: rest2 =>
      decide (2 ≤ d1.length ∧ d1.length ≤ 7 ∧ d2.length = 2 ∧
        rest2.length = 1) && allDigits rest2
    | _ => false
  | _ => false

/-- Regex `/^\d{3}-\d{3}-\d$/` (EC number format). -/
def ecNumberPat (l : List Char) : Bool :=
  let d1 := l.takeWhile Char.isDigit
  match l.dropWhile Char.isDigit with
  | '-' :: rest =>
    let d2 := rest.takeWhile Char.isDigit
    match rest.dropWhile Char.isDigit with
    | '-' :: rest2 =>
      decide (d1.length = 3 ∧ d2.length = 3 ∧ rest2.length = 1) &&
        allDigits rest2
    | _ => false
  | _ => false

/-- Regex `/^[A-Z0-9]{10}$/` (UNII format, case-sensitive). -/
def uniiPat (l : List Char) : Bool :=
  decide (l.length = 10) && l.all (fun c => isUpperAlpha c || c.isDigit)

/-- Regex `/^[A-Z0-9]{10}$/i` (UNII plausibility, case-insensitive). -/
def uniiPatCI (l : List Char) : Bool :=
  decide (l.length = 10) && l.all (fun c => isAsciiLetter c || c.isDigit)

/-- Regex `/^E\d{3,4}[a-z]?$/i` (E-number format). -/
def eNumberPat (l : List Char) : Bool :=
  match l with
  | [] => false
  | c :: rest =>
    (c == 'E' || c == 'e') &&
    (let ds := rest.takeWhile Char.isDigit
     let tail := rest.dropWhile Char.isDigit
     decide (3 ≤ ds.length ∧ ds.length ≤ 4) &&
       (tail.isEmpty || (decide (tail.length = 1) && tail.all isAsciiLetter)))

/-- The punctuation characters admitted by the SMILES character class. -/
def smilesPunct : List Char :=
  ['@', '+', '-', '[', ']', '(', ')', '=', '#', '$', ':', '.', '\\', '/']

/-- Regex `/^[A-Za-z0-9@+\-\[\]()=#$:.\\\/]+$/` (SMILES character check). -/
def smilesPat (l : List Char) : Bool :=
  !l.isEmpty &&
    l.all (fun c => isAsciiLetter c || c.isDigit || smilesPunct.contains c)

/-- Regex `/^InChI=1S?\//` (anchored only at the start). -/
def inchiPat (l : List Char) : Bool :=
  "InChI=1S/".data.isPrefixOf l || "InChI=1/".data.isPrefixOf l

/-- Regex `/^[A-Z]{2}\d{7}$/` (RTECS number format). -/
def rtecsPat (l : List Char) : Bool :=
  match l with
  | a :: b :: rest =>
    isUpperAlpha a && isUpperAlpha b && decide (rest.length = 7) &&
      allDigits rest
  | _ => false

/-- Regex `/^DTXSID\d{7,}$/` (CompTox Dashboard format). -/
def compToxPat (l : List Char) : Bool :=
  match l with
  | 'D' :: 'T' :: 'X' :: 'S' :: 'I' :: 'D' :: rest =>
    decide (7 ≤ rest.length) && allDigits rest
  | _ => false

/-- The `VALIDATION_PATTERNS` table: the per-kind format regex, when one is
defined (`iupacName` and `echaInfoCard` have none). -/
def VALIDATION_PATTERNS : IdKind → Option (List Char → Bool)
  | .casNumber => some casNumberPat
  | .pubchemCID => some digitsPat
  | .unii => some uniiPat
  | .chemSpider => some digitsPat
  | .ecNumber => some ecNumberPat
  | .eNumber => some eNumberPat
  | .smiles => some smilesPat
  | .inchi => some inchiPat
  | .rtecsNumber => some rtecsPat
  | .compToxDashboard => some compToxPat
  | _ => none

/-- Model of `s.replace(/^TAG:?/i, '')` for an alphabetic tag, given in
lowercase: strip the tag (and one following colon, if present) from the
front of the string, comparing case-insensitively. -/
def stripTag (tag : List Char) (s : String) : String :=
  if (s.data.take tag.length).map jsLowerChar == tag then
    match s.data.drop tag.length with
    | ':' :: rest2 => ⟨rest2⟩
    | rest => ⟨rest⟩
  else s

/-- Insert the CAS hyphens into a bare digit run (`slice` positions from the
source: 5/7 for length 8, 6/8 for length 9). -/
def casHyphenate (l : List Char) : List Char :=
  if l.length = 8 then
    l.take 5 ++ '-' :: (l.drop 5).take 2 ++ '-' :: l.drop 7
  else
    l.take 6 ++ '-' :: (l.drop 6).take 2 ++ '-' :: l.drop 8

/-- The `casNumber` arm of `normalizeIdentifier`: re-hyphenate a bare
8- or 9-digit run (`/^\d{8,9}$/`). -/
def normCas (value : String) : String :=
  let trimmed := jsTrim value
  if allDigits trimmed.data &&
      (decide (trimmed.data.length = 8) || decide (trimmed.data.length = 9)) then
    ⟨casHyphenate trimmed.data⟩
  else trimmed

/-- The `pubchemCID`/`chemSpider` arm of `normalizeIdentifier`:
`.replace(/^CID:?/i, '').replace(/^CSID:?/i, '')` after trimming. -/
def normDbId (value : String) : String :=
  stripTag "csid".data (stripTag "cid".data (jsTrim value))

/-- The `inchi` arm of `normalizeIdentifier`: prepend `InChI=` when
absent. -/
def normInchi (value : String) : String :=
  let trimmed := jsTrim value
  if strStarts "InChI=" trimmed then trimmed else ⟨"InChI=".data ++ trimmed.data⟩

/-- The `eNumber` arm of `normalizeIdentifier`: uppercase, then
`.replace(/^E?/, 'E')` (prepend `E` when absent). -/
def normE (value : String) : String :=
  let u := jsUpper (jsTrim value)
  if strStarts "E" u then u else ⟨'E' :: u.data⟩

/-- The `unii`/`rtecsNumber` arm of `normalizeIdentifier`: uppercase. -/
def normUpperKind (value : String) : String := jsUpper (jsTrim value)

/-- The `compToxDashboard` arm of `normalizeIdentifier`: uppercase, then
`.replace(/^DTXSID:?/i, 'DTXSID')`. -/
def normCompTox (value : String) : String :=
  let u := jsUpper (jsTrim value)
  if strStarts "DTXSID:" u then ⟨"DTXSID".data ++ u.data.drop 7⟩ else u

/-- Model of `normalizeIdentifier` from `identifierLookup.ts` (the
per-kind arms are the named functions above; unlisted kinds are
trimmed only). -/
def normalizeIdentifier (t : IdKind) (value : String) : String :=
  match t with
  | .casNumber => normCas value
  | .pubchemCID => normDbId value
  | .chemSpider => normDbId value
  | .inchi => normInchi value
  | .eNumber => normE value
  | .unii => normUpperKind value
  | .rtecsNumber => normUpperKind value
  | .compToxDashboard => normCompTox value
  | _ => jsTrim value

/-- Model of `validateIdentifier` from `identifierLookup.ts`: normalize,
then test the per-kind pattern (kinds with no pattern always pass). -/
def validateIdentifier (t : IdKind) (value : String) : Bool :=
  match VALIDATION_PATTERNS t with
  | none => true
  | some p => p (normalizeIdentifier t value).data

/-- Decimal value of a digit string (model of `parseInt` on an all-digit
input, as guarded in the source). -/
def decimalValue (l : List Char) : Nat :=
  l.foldl (fun n c => n * 10 + (c.toNat - 48)) 0

/-- Regex `/^[^a-z0-9\-\[\]()=\s]+$/i`: the whole input consists of
characters that are not alphanumeric, not `-[]()=`, and not whitespace. -/
def onlySpecialChars (l : List Char) : Bool :=
  !l.isEmpty && l.all (fun c =>
    !(isAsciiLetter c || c.isDigit || ['-', '[', ']', '(', ')', '='].contains c
      || isJsSpace c))

/-- Regex `/^[a-z]{1,3}$/` (applied to the lowercased input). -/
def shortAlphaPat (l : List Char) : Bool :=
  decide (1 ≤ l.length ∧ l.length ≤ 3) && l.all isLowerAlpha

/-- Regex `/[a-z]/i`: contains a letter. -/
def hasLetter (l : List Char) : Bool := l.any isAsciiLetter

/-- Regex `/[aeiouy]/i`: contains a vowel (or `y`). -/
def hasVowel (l : List Char) : Bool :=
  l.any (fun c => ['a', 'e', 'i', 'o', 'u', 'y'].contains (jsLowerChar c))

/-- Regex `/[a-z0-9]/i`: contains an alphanumeric character. -/
def hasAlnum (l : List Char) : Bool :=
  l.any (fun c => isAsciiLetter c || c.isDigit)

/-- Consonant for the gibberish check: a letter of the class
`[bcdfghjklmnpqrstvwxyz]` (case-insensitively). -/
def isConsonant (c : Char) : Bool :=
  isAsciiLetter c && !(['a', 'e', 'i', 'o', 'u'].contains (jsLowerChar c))

/-- Regex `/[bcdfghjklmnpqrstvwxyz]{5,}/i`: some run of five consecutive
consonants occurs in the input. -/
def hasConsonantRun5 : List Char → Bool
  | [] => false
  | c :: rest =>
    (decide (5 ≤ (c :: rest).length) && ((c :: rest).take 5).all isConsonant)
      || hasConsonantRun5 rest

/-- Whitelisted 1-3 letter tokens at the generic pre-check. -/
def commonAtoms : List String := ["o", "c", "n", "h"]

/-- Single atoms and simple molecules accepted as IUPAC names. -/
def singleAtoms : List String :=
  ["o", "c", "n", "h", "f", "cl", "br", "i", "s", "p"]

/-- Known vowel-less chemical abbreviations accepted as IUPAC names. -/
def vowellessExceptions : List String :=
  ["ch4", "nh3", "hcl", "h2o", "co2", "h2s", "hf", "hbr", "hi"]

/-- Model of `isReasonableInput` from `identifierLookup.ts` (the
plausibility pre-validation). -/
def isReasonableInput (t : IdKind) (value : String) : Bool :=
  let trimmed := jsLower (jsTrim value)
  if decide (trimmed.data.length < 2) then false
  else if onlySpecialChars trimmed.data then false
  else if shortAlphaPat trimmed.data && !(commonAtoms.contains trimmed) then false
  else
    match t with
    | .iupacName =>
      if !hasLetter trimmed.data then false
      else if decide (trimmed.data.length < 2) then false
      else if singleAtoms.contains trimmed then true
      else if decide (3 ≤ trimmed.data.length) then
        if !hasVowel trimmed.data && !(vowellessExceptions.contains trimmed) then
          false
        else if hasConsonantRun5 trimmed.data then false
        else true
      else true
    | .casNumber => casNumberPat trimmed.data
    | .pubchemCID => digitsPat trimmed.data && decide (0 < decimalValue trimmed.data)
    | .chemSpider => digitsPat trimmed.data && decide (0 < decimalValue trimmed.data)
    | .smiles => smilesPat trimmed.data
    | .inchi => strStarts "inchi=" trimmed
    | .unii => uniiPatCI trimmed.data
    | _ => decide (2 ≤ trimmed.data.length) && hasAlnum trimmed.data

/-- Model of `calculateConfidence` from `identifierLookup.ts`:
base `min(count/8, 1)`, `+0.2` (capped at 1) when the requested kind's
field is truthy, floored at `0.3`. -/
def calculateConfidence (identifiers : IdentifierSet) (sourceType : IdKind) : ℚ :=
  let identifierCount : ℚ := identifiers.count
  let hasSourceType := truthy (identifiers.get sourceType)
  let confidence := min (identifierCount / 8) 1
  let confidence := if hasSourceType then min (confidence + 2/10) 1 else confidence
  max confidence (3/10)

/-- A cache slot: the stored identifier set, its creation timestamp
(milliseconds), and the source label. -/
structure CacheEntry where
  identifiers : IdentifierSet
  timestamp : Int
  source : String
deriving DecidableEq, Repr

/-- The identifier cache, modelled as an association list with
first-match lookup (JS `Map` keyed by strings). -/
abbrev Cache := List (String × CacheEntry)

/-- `identifierCache.get(key)`. -/
def cacheGet (c : Cache) (key : String) : Option CacheEntry :=
  (c.find? (fun p => p.1 == key)).map (·.2)

/-- `identifierCache.set(key, e)`: overwrite the slot for `key`. -/
def cacheSet (c : Cache) (key : String) (e : CacheEntry) : Cache :=
  (key, e) :: c.filter (fun p => p.1 != key)

/-- `CACHE_DURATION`: one hour in milliseconds. -/
def CACHE_DURATION : Int := 60 * 60 * 1000

/-- Model of `isCacheValid`: the entry is younger than the TTL. -/
def isCacheValid (now timestamp : Int) : Bool := now - timestamp < CACHE_DURATION

/-- Model of `getCacheKey`: `kind:normalize(value).toLowerCase()`. -/
def getCacheKey (t : IdKind) (value : String) : String :=
  kindName t ++ ":" ++ jsLower (normalizeIdentifier t value)

/-- The cache-hit step of `lookupChemicalIdentifiers` (lines 190-200):
a present, unexpired entry yields a success result whose source is
suffixed `" (cached)"` and whose confidence is 1; otherwise the lookup
falls through as a miss. -/
def cacheCheck (cache : Cache) (key : String) (now : Int) : Option LookupResult :=
  match cacheGet cache key with
  | some entry =>
    if isCacheValid now entry.timestamp then
      some { success := true
             identifiers := some entry.identifiers
             source := some (entry.source ++ " (cached)")
             confidence := some 1 }
    else none
  | none => none

/-- Local-table identifier set for water. -/
def waterSet : IdentifierSet :=
  { iupacName := some "water", smiles := some "O"
    inchi := some "InChI=1S/H2O/h1H2", casNumber := some "7732-18-5"
    pubchemCID := some "962", unii := some "059QF0KO0R" }

/-- Local-table identifier set for carbon dioxide. -/
def co2Set : IdentifierSet :=
  { iupacName := some "carbon dioxide", smiles := some "O=C=O"
    inchi := some "InChI=1S/CO2/c2-1-3", casNumber := some "124-38-9"
    pubchemCID := some "280", unii := some "142M471B3J" }

/-- Local-table identifier set for methane. -/
def methaneSet : IdentifierSet :=
  { iupacName := some "methane", smiles := some "C"
    inchi := some "InChI=1S/CH4/h1H4", casNumber := some "74-82-8"
    pubchemCID := some "297", unii := some "OP0UW79H66" }

/-- Local-table identifier set for ethanol. -/
def ethanolSet : IdentifierSet :=
  { iupacName := some "ethanol", smiles := some "CCO"
    inchi := some "InChI=1S/C2H6O/c1-2-3/h3H,2H2,1H3", casNumber := some "64-17-5"
    pubchemCID := some "702", unii := some "3K9958V90M" }

/-- Local-table identifier set for benzene. -/
def benzeneSet : IdentifierSet :=
  { iupacName := some "benzene", smiles := some "c1ccccc1"
    inchi := some "InChI=1S/C6H6/c1-2-4-6-5-3-1/h1-6H", casNumber := some "71-43-2"
    pubchemCID := some "241", unii := some "J64922108F" }

/-- Local-table identifier set for acetic acid. -/
def aceticAcidSet : IdentifierSet :=
  { iupacName := some "acetic acid", smiles := some "CC(=O)O"
    inchi := some "InChI=1S/C2H4O2/c1-2(3)4/h1H3,(H,3,4)", casNumber := some "64-19-7"
    pubchemCID := some "176", unii := some "Q40Q9N063P" }

/-- Local-table identifier set for formic acid. -/
def formicAcidSet : IdentifierSet :=
  { iupacName := some "formic acid", smiles := some "C(=O)O"
    inchi := some "InChI=1S/CH2O2/c2-1-3/h1H,(H,2,3)", casNumber := some "64-18-6"
    pubchemCID := some "284", unii := some "0YIW783RG1" }

/-- Local-table identifier set for methanol. -/
def methanolSet : IdentifierSet :=
  { iupacName := some "methanol", smiles := some "CO"
    inchi := some "InChI=1S/CH4O/c1-2/h2H,1H3", casNumber := some "67-56-1"
    pubchemCID := some "887", unii := some "Y4S76JWI15" }

/-- Local-table identifier set for ammonia. -/
def ammoniaSet : IdentifierSet :=
  { iupacName := some "ammonia", smiles := some "N"
    inchi := some "InChI=1S/H3N/h1H3", casNumber := some "7664-41-7"
    pubchemCID := some "222", unii := some "5138Q19F1X" }

/-- Local-table identifier set for ethane. -/
def ethaneSet : IdentifierSet :=
  { iupacName := some "ethane", smiles := some "CC"
    inchi := some "InChI=1S/C2H6/c1-2/h1-2H3", casNumber := some "74-84-0"
    pubchemCID := some "6324", unii := some "L99N5N533T" }

/-- Local-table identifier set for propane. -/
def propaneSet : IdentifierSet :=
  { iupacName := some "propane", smiles := some "CCC"
    inchi := some "InChI=1S/C3H8/c1-3-2/h3H2,1-2H3", casNumber := some "74-98-6"
    pubchemCID := some "6334", unii := some "T75W9KEA2A" }

/-- Local-table identifier set for butane. -/
def butaneSet : IdentifierSet :=
  { iupacName := some "butane", smiles := some "CCCC"
    inchi := some "InChI=1S/C4H10/c1-3-4-2/h3-4H2,1-2H3", casNumber := some "106-97-8"
    pubchemCID := some "7843", unii := some "VR7E826LM6" }

/-- Local-table identifier set for isobutane. -/
def isobutaneSet : IdentifierSet :=
  { iupacName := some "2-methylpropane", smiles := some "CC(C)C"
    inchi := some "InChI=1S/C4H10/c1-4(2)3/h4H,1-3H3", casNumber := some "75-28-5"
    pubchemCID := some "6344", unii := some "BXN20XJN5I" }

/-- Local-table identifier set for toluene. -/
def tolueneSet : IdentifierSet :=
  { iupacName := some "toluene", smiles := some "Cc1ccccc1"
    inchi := some "InChI=1S/C7H8/c1-7-5-3-2-4-6-7/h2-6H,1H3", casNumber := some "108-88-3"
    pubchemCID := some "1140", unii := some "3FPU23BG52" }

/-- Local-table identifier set for glucose. -/
def glucoseSet : IdentifierSet :=
  { iupacName := some "D-glucose"
    smiles := some "C([C@@H]1[C@H]([C@@H]([C@H]([C@H](O1)O)O)O)O)O"
    inchi := some "InChI=1S/C6H12O6/c7-1-2-3(8)4(9)5(10)6(11)12-2/h2-11H,1H2/t2-,3-,4+,5-,6+/m1/s1"
    casNumber := some "50-99-7", pubchemCID := some "5793", unii := some "IY9XDZ35W2" }

/-- Local-table identifier set for caffeine. -/
def caffeineSet : IdentifierSet :=
  { iupacName := some "1,3,7-trimethylpurine-2,6-dione"
    smiles := some "CN1C=NC2=C1C(=O)N(C(=O)N2C)C"
    inchi := some "InChI=1S/C8H10N4O2/c1-10-4-9-6-5(10)7(13)12(3)8(14)11(6)2/h4H,1-3H3"
    casNumber := some "58-08-2", pubchemCID := some "2519", unii := some "3G6A5W338E" }

/-- Local-table identifier set for aspirin. -/
def aspirinSet : IdentifierSet :=
  { iupacName := some "2-acetoxybenzoic acid"
    smiles := some "CC(=O)OC1=CC=CC=C1C(=O)O"
    inchi := some "InChI=1S/C9H8O4/c1-6(10)13-8-5-3-2-4-7(8)9(11)12/h2-5H,1H3,(H,11,12)"
    casNumber := some "50-78-2", pubchemCID := some "2244", unii := some "R16CO5Y76E" }

/-- The `commonCompounds` object of `getLocalIdentifiers`, as its
alias-key/value pairs in insertion order. -/
def commonCompounds : List (String × IdentifierSet) :=
  [("water", waterSet), ("h2o", waterSet), ("o", waterSet),
   ("7732-18-5", waterSet),
   ("carbon dioxide", co2Set), ("co2", co2Set), ("o=c=o", co2Set),
   ("124-38-9", co2Set),
   ("methane", methaneSet), ("ch4", methaneSet), ("c", methaneSet),
   ("74-82-8", methaneSet),
   ("ethanol", ethanolSet), ("ethyl alcohol", ethanolSet), ("cco", ethanolSet),
   ("64-17-5", ethanolSet),
   ("benzene", benzeneSet), ("c1ccccc1", benzeneSet), ("71-43-2", benzeneSet),
   ("acetic acid", aceticAcidSet), ("cc(=o)o", aceticAcidSet),
   ("64-19-7", aceticAcidSet),
   ("formic acid", formicAcidSet), ("methanoic acid", formicAcidSet),
   ("c(=o)o", formicAcidSet), ("64-18-6", formicAcidSet),
   ("methanol", methanolSet), ("methyl alcohol", methanolSet),
   ("co", methanolSet), ("67-56-1", methanolSet),
   ("ammonia", ammoniaSet), ("nh3", ammoniaSet), ("n", ammoniaSet),
   ("7664-41-7", ammoniaSet),
   ("ethane", ethaneSet), ("cc", ethaneSet), ("74-84-0", ethaneSet),
   ("propane", propaneSet), ("ccc", propaneSet), ("74-98-6", propaneSet),
   ("butane", butaneSet), ("cccc", butaneSet), ("106-97-8", butaneSet),
   ("isobutane", isobutaneSet), ("2-methylpropane", isobutaneSet),
   ("cc(c)c", isobutaneSet), ("75-28-5", isobutaneSet),
   ("toluene", tolueneSet), ("methylbenzene", tolueneSet),
   ("cc1ccccc1", tolueneSet), ("108-88-3", tolueneSet),
   ("glucose", glucoseSet), ("d-glucose", glucoseSet), ("50-99-7", glucoseSet),
   ("caffeine", caffeineSet), ("58-08-2", caffeineSet),
   ("aspirin", aspirinSet), ("acetylsalicylic acid", aspirinSet),
   ("50-78-2", aspirinSet)]

/-- Model of `getLocalIdentifiers`: direct alias lookup on the lowercased,
trimmed input, then a scan for any compound whose field for the requested
kind matches it case-insensitively. -/
def getLocalIdentifiers (sourceType : IdKind) (sourceValue : String) :
    Option IdentifierSet :=
  let lowerValue := jsTrim (jsLower sourceValue)
  match commonCompounds.find? (fun p => p.1 == lowerValue) with
  | some p => some p.2
  | none =>
    match commonCompounds.find? (fun p =>
        match p.2.get sourceType with
        | some v => jsLower v == lowerValue
        | none => false) with
    | some p => some p.2
    | none => none

/-- One run of the retry wrapper: the final outcome, the attempt indices
performed (in order), and the backoff waits (milliseconds) performed
between consecutive attempts. -/
structure RetryRun where
  outcome : Except String LookupResult
  attempts : List Nat
  waits : List Nat
deriving Repr

/-- The `for (let attempt = 0; attempt <= db.retries; attempt++)` loop of
`lookupFromDatabase`.  `remaining` counts the attempts still allowed
(including the current one); a non-throwing attempt returns immediately
(whether or not its result is successful), a throwing attempt waits
`1000 * 2 ^ attempt` and retries while attempts remain, and the last
thrown error is rethrown once the budget is exhausted. -/
def retryLoop (oracle : Nat → Except String LookupResult) :
    Nat → Nat → RetryRun
  | 0, _ => ⟨.error "Failed after 0 attempts", [], []⟩
  | remaining + 1, attempt =>
    match oracle attempt with
    | .ok res => ⟨.ok res, [attempt], []⟩
    | .error e =>
      match remaining with
      | 0 => ⟨.error e, [attempt], []⟩
      | r + 1 =>
        let rest := retryLoop oracle (r + 1) (attempt + 1)
        ⟨rest.outcome, attempt :: rest.attempts, 1000 * 2 ^ attempt :: rest.waits⟩

/-- Model of `lookupFromDatabase`: up to `db.retries + 1` attempts against
the per-attempt oracle for this database. -/
def lookupFromDatabase (db : DatabaseConfig)
    (oracle : Nat → Except String LookupResult) : RetryRun :=
  retryLoop oracle (db.retries + 1) 0

/-- Stable insertion of a database into a priority-descending list
(insert strictly after entries of greater-or-equal priority). -/
def insertDesc (x : DatabaseConfig) : List DatabaseConfig → List DatabaseConfig
  | [] => [x]
  | y :: ys => if y.priority < x.priority then x :: y :: ys else y :: insertDesc x ys

/-- Model of `DATABASES.sort((a, b) => b.priority - a.priority)`: a stable
sort by descending priority. -/
def sortByPriorityDesc (l : List DatabaseConfig) : List DatabaseConfig :=
  l.foldr insertDesc []

/-- The database order actually used by the orchestrator's fallback loop. -/
def sortedDatabases : List DatabaseConfig := sortByPriorityDesc DATABASES

/-- Outcome of a whole resolution: the returned result, the cache after the
run, and the trace of remote attempts as (database name, attempt index)
pairs in the order they were made. -/
structure LookupOutcome where
  result : LookupResult
  cache : Cache
  attempts : List (String × Nat)
deriving Repr

/-- The `for (const db of DATABASES.sort(...))` loop of
`lookupChemicalIdentifiers`: try each database in order; a successful
result carrying an identifier set is cached and returned (source set to
the database name, confidence computed); any other outcome falls through
to the next database; when all are exhausted a generic failure result is
returned.  Thrown errors are collected (the collected list is not used by
the final message, as in the source). -/
def dbLoop (oracle : String → Nat → Except String LookupResult)
    (sourceType : IdKind) (sourceValue : String) (cacheKey : String)
    (now : Int) : List DatabaseConfig → Cache → List String → LookupOutcome
  | [], cache, _errors =>
    ⟨{ success := false
       error := some ("Unable to find \"" ++ sourceValue ++
         "\" in chemical databases. Please check the spelling or try a different identifier type.") },
     cache, []⟩
  | db :: rest, cache, errors =>
    let run := lookupFromDatabase db (oracle db.name)
    let t0 := run.attempts.map (fun a => (db.name, a))
    match run.outcome with
    | .ok r =>
      match r.identifiers with
      | some ids =>
        if r.success then
          ⟨{ r with source := some db.name
                    confidence := some (calculateConfidence ids sourceType) },
           cacheSet cache cacheKey ⟨ids, now, db.name⟩, t0⟩
        else
          let next := dbLoop oracle sourceType sourceValue cacheKey now rest cache errors
          ⟨next.result, next.cache, t0 ++ next.attempts⟩
      | none =>
        let next := dbLoop oracle sourceType sourceValue cacheKey now rest cache errors
        ⟨next.result, next.cache, t0 ++ next.attempts⟩
    | .error e =>
      let next := dbLoop oracle sourceType sourceValue cacheKey now rest cache
        (errors ++ [db.name ++ ": " ++ e])
      ⟨next.result, next.cache, t0 ++ next.attempts⟩

/-- Model of `lookupChemicalIdentifiers`: empty-input check, plausibility
check, normalization + format check, cache check, local-table lookup
(cached on hit), then the remote fallback loop.  `now` is the frozen
`Date.now()` of the run and `oracle` supplies the behaviour of the remote
databases. -/
def lookupChemicalIdentifiers (sourceType : IdKind) (sourceValue : String)
    (cache : Cache) (now : Int)
    (oracle : String → Nat → Except String LookupResult) : LookupOutcome :=
  if jsTrim sourceValue == "" then
    ⟨{ success := false, error := some "Empty identifier provided" }, cache, []⟩
  else if !isReasonableInput sourceType sourceValue then
    ⟨{ success := false
       error := some ("Invalid " ++ kindName sourceType ++
         ". Please enter a valid chemical identifier.") }, cache, []⟩
  else
    let normalizedValue := normalizeIdentifier sourceType sourceValue
    if !validateIdentifier sourceType normalizedValue then
      ⟨{ success := false
         error := some ("Invalid format for " ++ kindName sourceType ++ ": " ++
           sourceValue) }, cache, []⟩
    else
      let cacheKey := getCacheKey sourceType normalizedValue
      match cacheCheck cache cacheKey now with
      | some r => ⟨r, cache, []⟩
      | none =>
        match getLocalIdentifiers sourceType normalizedValue with
        | some localResult =>
          ⟨{ success := true
             identifiers := some localResult
             source := some "Local Database"
             confidence := some 1 },
           cacheSet cache cacheKey ⟨localResult, now, "Local Database"⟩, []⟩
        | none =>
          dbLoop oracle sourceType sourceValue cacheKey now sortedDatabases cache []

/-- Model of the identifier-state merge performed by the application layer
(`handleInputChange` in `App.tsx`) after a successful lookup:
`setIdentifiers(prev => ({ ...prev, ...found, [field]: value }))`.
`prev` is the full twelve-field UI record. -/
def appMergeStep (prev : IdKind → String) (found : IdentifierSet)
    (field : IdKind) (value : String) : IdKind → String :=
  fun k =>
    if k = field then value
    else
      match found.get k with
      | some v => v
      | none => prev k

theorem trimChars_eq_rdrop (l : List Char) :
    trimChars l = List.rdropWhile isJsSpace (List.dropWhile isJsSpace l) := rfl

theorem head?_of_isPrefix {l m : List Char} (h : l <+: m) {x : Char}
    (hx : l.head? = some x) : m.head? = some x := by
  obtain ⟨t, rfl⟩ := h
  cases l with
  | nil => simp at hx
  | cons a s => simpa using hx

theorem head?_trimChars (l : List Char) :
    ∀ x, (trimChars l).head? = some x → isJsSpace x = false := by
  intro x hx
  rw [trimChars_eq_rdrop] at hx
  have hpre := List.rdropWhile_prefix isJsSpace (List.dropWhile isJsSpace l)
  have hD : (List.dropWhile isJsSpace l).head? = some x := head?_of_isPrefix hpre hx
  have h2 := List.head?_dropWhile_not isJsSpace l
  rw [hD] at h2
  exact h2

theorem getLast?_trimChars (l : List Char) :
    ∀ x, (trimChars l).getLast? = some x → isJsSpace x = false := by
  intro x hx
  rw [trimChars_eq_rdrop] at hx
  have hne : List.rdropWhile isJsSpace (List.dropWhile isJsSpace l) ≠ [] := by
    intro h
    rw [h] at hx
    simp at hx
  have h2 := List.rdropWhile_last_not isJsSpace (List.dropWhile isJsSpace l) hne
  rw [List.getLast?_eq_getLast _ hne] at hx
  have hx' := Option.some.inj hx
  rw [hx'] at h2
  exact eq_false_of_ne_true h2

theorem trimChars_eq_self {l : List Char}
    (h1 : ∀ x, l.head? = some x → isJsSpace x = false)
    (h2 : ∀ x, l.getLast? = some x → isJsSpace x = false) :
    trimChars l = l := by
  rw [trimChars_eq_rdrop]
  have hd : List.dropWhile isJsSpace l = l := by
    cases l with
    | nil => rfl
    | cons a s => simp [List.dropWhile_cons, h1 a rfl]
  rw [hd, List.rdropWhile_eq_self_iff]
  intro hl
  have := h2 (l.getLast hl) (List.getLast?_eq_getLast _ hl)
  simp [this]

theorem trimChars_eq_self_of_all {l : List Char}
    (h : ∀ x ∈ l, isJsSpace x = false) : trimChars l = l := by
  refine trimChars_eq_self (fun x hx => h x ?_) (fun x hx => h x ?_)
  · exact List.mem_of_mem_head? hx
  · exact List.mem_of_mem_getLast? hx

theorem trimChars_idem (l : List Char) : trimChars (trimChars l) = trimChars l :=
  trimChars_eq_self (head?_trimChars l) (getLast?_trimChars l)

/-- The lowercase ASCII letters. -/
def lowerLetters : List Char :=
  ['a', 'b', 'c', 'd', 'e', 'f', 'g', 'h', 'i', 'j', 'k', 'l', 'm',
   'n', 'o', 'p', 'q', 'r', 's', 't', 'u', 'v', 'w', 'x', 'y', 'z']

theorem mem_lowerLetters_of_range (c : Char) (h1 : 97 ≤ c.toNat)
    (h2 : c.toNat ≤ 122) : c ∈ lowerLetters := by
  obtain ⟨n, hn⟩ : ∃ n, c.toNat = n := ⟨_, rfl⟩
  have e : c = Char.ofNat n := by rw [← hn]; exact (Char.ofNat_toNat c).symm
  subst e
  rw [hn] at h1 h2
  interval_cases n <;> decide

theorem toUpper_eq_of_notLower (c : Char)
    (h : ¬(97 ≤ c.toNat ∧ c.toNat ≤ 122)) : Char.toUpper c = c := by
  unfold Char.toUpper
  simp only []
  rw [if_neg h]

theorem jsUpperChar_idem (c : Char) :
    jsUpperChar (jsUpperChar c) = jsUpperChar c := by
  by_cases h : 97 ≤ c.toNat ∧ c.toNat ≤ 122
  · have hm := mem_lowerLetters_of_range c h.1 h.2
    fin_cases hm <;> decide
  · unfold jsUpperChar
    simp only [toUpper_eq_of_notLower c h]

theorem isJsSpace_jsUpperChar (c : Char) :
    isJsSpace (jsUpperChar c) = isJsSpace c := by
  by_cases h : 97 ≤ c.toNat ∧ c.toNat ≤ 122
  · have hm := mem_lowerLetters_of_range c h.1 h.2
    fin_cases hm <;> decide
  · unfold jsUpperChar
    rw [toUpper_eq_of_notLower c h]

theorem map_upper_idem (l : List Char) :
    (l.map jsUpperChar).map jsUpperChar = l.map jsUpperChar := by
  rw [List.map_map]
  exact List.map_congr_left (fun a _ => jsUpperChar_idem a)

theorem trimChars_map_upper (l : List Char) :
    trimChars (l.map jsUpperChar) = (trimChars l).map jsUpperChar := by
  have hp : (isJsSpace ∘ jsUpperChar) = isJsSpace := by
    funext c
    exact isJsSpace_jsUpperChar c
  unfold trimChars
  rw [List.dropWhile_map, hp, ← List.map_reverse, List.dropWhile_map, hp,
    ← List.map_reverse]

theorem jsTrim_idem (v : String) : jsTrim (jsTrim v) = jsTrim v :=
  congrArg String.mk (trimChars_idem v.data)

theorem data_jsTrim (v : String) : (jsTrim v).data = trimChars v.data := rfl

theorem mem_casHyphenate {T : List Char} {x : Char} (hx : x ∈ casHyphenate T) :
    x ∈ T ∨ x = '-' := by
  unfold casHyphenate at hx
  split at hx <;>
    (simp only [List.mem_append, List.mem_cons, or_assoc] at hx
     rcases hx with h | h | h | h | h
     · exact Or.inl (List.mem_of_mem_take h)
     · exact Or.inr h
     · exact Or.inl (List.mem_of_mem_drop (List.mem_of_mem_take h))
     · exact Or.inr h
     · exact Or.inl (List.mem_of_mem_drop h))

theorem dash_mem_casHyphenate (T : List Char) : '-' ∈ casHyphenate T := by
  unfold casHyphenate
  split <;> simp

theorem allDigits_casHyphenate (T : List Char) :
    allDigits (casHyphenate T) = false := by
  apply eq_false_of_ne_true
  intro hall
  rw [allDigits, List.all_eq_true] at hall
  have := hall '-' (dash_mem_casHyphenate T)
  exact absurd this (by decide)

theorem isJsSpace_of_digit {x : Char} (hd : x.isDigit = true) :
    isJsSpace x = false := by
  apply eq_false_of_ne_true
  intro hs
  unfold isJsSpace at hs
  simp only [Bool.or_eq_true, decide_eq_true_eq, or_assoc] at hs
  rcases hs with h | h | h | h | h | h <;> subst h <;> revert hd <;> decide

theorem trimChars_casHyphenate {T : List Char} (hT : allDigits T = true) :
    trimChars (casHyphenate T) = casHyphenate T := by
  apply trimChars_eq_self_of_all
  intro x hx
  rcases mem_casHyphenate hx with h | h
  · rw [allDigits, List.all_eq_true] at hT
    exact isJsSpace_of_digit (hT x h)
  · subst h
    decide

theorem data_mk (l : List Char) : (⟨l⟩ : String).data = l := rfl

theorem normCas_eq (v : String) :
    normCas v =
      if allDigits (jsTrim v).data &&
          (decide ((jsTrim v).data.length = 8) ||
            decide ((jsTrim v).data.length = 9)) then
        (⟨casHyphenate (jsTrim v).data⟩ : String)
      else jsTrim v := rfl

theorem normCas_idem (v : String) : normCas (normCas v) = normCas v := by
  rw [normCas_eq v]
  split
  · next hc =>
    have hdig : allDigits (jsTrim v).data = true := by
      simp only [Bool.and_eq_true] at hc
      exact hc.1
    have htrim : jsTrim (⟨casHyphenate (jsTrim v).data⟩ : String) =
        ⟨casHyphenate (jsTrim v).data⟩ :=
      congrArg String.mk (trimChars_casHyphenate hdig)
    rw [normCas_eq, htrim, data_mk, if_neg]
    rw [allDigits_casHyphenate]
    simp
  · next hc =>
    rw [normCas_eq, jsTrim_idem, if_neg hc]

theorem strStarts_iff (pre s : String) : strStarts pre s = true ↔ pre.data <+: s.data := by
  unfold strStarts
  exact List.isPrefixOf_iff_prefix

theorem normInchi_eq (v : String) :
    normInchi v =
      if strStarts "InChI=" (jsTrim v) then jsTrim v
      else ⟨"InChI=".data ++ (jsTrim v).data⟩ := rfl

theorem normInchi_fixed {r : String} (hr : "InChI=".data <+: r.data)
    (htl : ∀ x, r.data.getLast? = some x → isJsSpace x = false) :
    normInchi r = r := by
  have hhead : r.data.head? = some 'I' := head?_of_isPrefix hr rfl
  have htc : trimChars r.data = r.data := by
    refine trimChars_eq_self (fun x hx => ?_) htl
    rw [hhead] at hx
    rw [← Option.some.inj hx]
    decide
  have htrim : jsTrim r = r := congrArg String.mk htc
  rw [normInchi_eq, htrim, if_pos ((strStarts_iff _ _).mpr hr)]

theorem normInchi_idem (v : String) : normInchi (normInchi v) = normInchi v := by
  rw [normInchi_eq v]
  split
  · next hc =>
    exact normInchi_fixed ((strStarts_iff _ _).mp hc) (getLast?_trimChars v.data)
  · next hc =>
    apply normInchi_fixed
    · rw [data_mk]
      exact List.prefix_append _ _
    · rw [data_mk]
      intro x hx
      cases he : (jsTrim v).data with
      | nil =>
        rw [he, List.append_nil] at hx
        have h9 : ("InChI=".data).getLast? = some '=' := rfl
        rw [h9] at hx
        rw [← Option.some.inj hx]
        decide
      | cons b m =>
        obtain ⟨y, hy⟩ : ∃ y, (b :: m).getLast? = some y :=
          ⟨_, List.getLast?_eq_getLast _ (by simp)⟩
        rw [he, List.getLast?_append, hy, Option.or_some] at hx
        have hxy := Option.some.inj hx
        subst hxy
        apply getLast?_trimChars v.data
        rw [← data_jsTrim, he]
        exact hy

theorem getLast?_upperTrim (v : String) :
    ∀ x, ((jsUpper (jsTrim v)).data).getLast? = some x → isJsSpace x = false := by
  intro x hx
  have hrepr : (jsUpper (jsTrim v)).data = (trimChars v.data).map jsUpperChar := rfl
  rw [hrepr, List.getLast?_map] at hx
  obtain ⟨y, hy, hxy⟩ := Option.map_eq_some'.mp hx
  rw [← hxy, isJsSpace_jsUpperChar]
  exact getLast?_trimChars v.data y hy

theorem normE_eq (v : String) :
    normE v =
      if strStarts "E" (jsUpper (jsTrim v)) then jsUpper (jsTrim v)
      else ⟨'E' :: (jsUpper (jsTrim v)).data⟩ := rfl

theorem normE_fixed {r : String} (h1 : r.data.head? = some 'E')
    (h2 : ∀ x, r.data.getLast? = some x → isJsSpace x = false)
    (h3 : r.data.map jsUpperChar = r.data) : normE r = r := by
  have htc : trimChars r.data = r.data := by
    refine trimChars_eq_self (fun x hx => ?_) h2
    rw [h1] at hx
    rw [← Option.some.inj hx]
    decide
  have htrim : jsTrim r = r := congrArg String.mk htc
  have hup : jsUpper r = r := by
    show String.mk (r.data.map jsUpperChar) = r
    rw [h3]
  have hpre : ("E".data) <+: r.data := by
    cases hd : r.data with
    | nil => rw [hd] at h1; simp at h1
    | cons a t =>
      rw [hd] at h1
      simp only [List.head?_cons, Option.some.injEq] at h1
      subst h1
      exact ⟨t, rfl⟩
  rw [normE_eq, htrim, hup, if_pos ((strStarts_iff _ _).mpr hpre)]

theorem normE_idem (v : String) : normE (normE v) = normE v := by
  rw [normE_eq v]
  split
  · next hc =>
    apply normE_fixed
    · have hpre := (strStarts_iff _ _).mp hc
      exact head?_of_isPrefix hpre rfl
    · exact getLast?_upperTrim v
    · show ((trimChars v.data).map jsUpperChar).map jsUpperChar =
        (trimChars v.data).map jsUpperChar
      exact map_upper_idem _
  · next hc =>
    apply normE_fixed
    · rw [data_mk]
      rfl
    · rw [data_mk]
      intro x hx
      cases he : (jsUpper (jsTrim v)).data with
      | nil =>
        rw [he] at hx
        have h1 : (['E'] : List Char).getLast? = some 'E' := rfl
        rw [h1] at hx
        rw [← Option.some.inj hx]
        decide
      | cons b m =>
        rw [he, List.getLast?_cons_cons] at hx
        rw [← he] at hx
        exact getLast?_upperTrim v x hx
    · rw [data_mk]
      show jsUpperChar 'E' :: ((jsUpper (jsTrim v)).data).map jsUpperChar = _
      have h2 : jsUpperChar 'E' = 'E' := by decide
      have h3 : ((jsUpper (jsTrim v)).data).map jsUpperChar =
          (jsUpper (jsTrim v)).data := map_upper_idem (trimChars v.data)
      rw [h2, h3]

theorem normUpperKind_idem (v : String) :
    normUpperKind (normUpperKind v) = normUpperKind v := by
  unfold normUpperKind
  have h1 : jsTrim (jsUpper (jsTrim v)) = jsUpper (jsTrim v) := by
    show String.mk (trimChars ((trimChars v.data).map jsUpperChar)) = _
    rw [trimChars_map_upper, trimChars_idem]
    rfl
  rw [h1]
  show String.mk (((trimChars v.data).map jsUpperChar).map jsUpperChar) = _
  rw [map_upper_idem]
  rfl

/-- Normalization is idempotent for every kind other than the two
database-ID kinds and the CompTox kind (whose prefix-stripping is not
idempotent). -/
theorem normalizeIdentifier_idem (t : IdKind) (v : String)
    (h1 : t ≠ .pubchemCID) (h2 : t ≠ .chemSpider)
    (h3 : t ≠ .compToxDashboard) :
    normalizeIdentifier t (normalizeIdentifier t v) =
      normalizeIdentifier t v := by
  cases t with
  | pubchemCID => exact absurd rfl h1
  | chemSpider => exact absurd rfl h2
  | compToxDashboard => exact absurd rfl h3
  | casNumber => exact normCas_idem v
  | inchi => exact normInchi_idem v
  | eNumber => exact normE_idem v
  | unii => exact normUpperKind_idem v
  | rtecsNumber => exact normUpperKind_idem v
  | iupacName => exact jsTrim_idem v
  | echaInfoCard => exact jsTrim_idem v
  | ecNumber => exact jsTrim_idem v
  | smiles => exact jsTrim_idem v

/-- Full characterization of the retry loop: the attempt indices are an
initial run starting at `attempt`, at least one and at most `remaining`
attempts are made, the waits are exactly the backoff values of all
non-final attempts, every non-final attempt threw, the outcome is the
result of the final attempt, and stopping early means the final attempt
did not throw. -/
theorem retryLoop_char (oracle : Nat → Except String LookupResult) :
    ∀ rem attempt : Nat, 0 < rem →
      (retryLoop oracle rem attempt).attempts =
        (List.range (retryLoop oracle rem attempt).attempts.length).map
          (· + attempt) ∧
      0 < (retryLoop oracle rem attempt).attempts.length ∧
      (retryLoop oracle rem attempt).attempts.length ≤ rem ∧
      (retryLoop oracle rem attempt).waits =
        (retryLoop oracle rem attempt).attempts.dropLast.map
          (fun a => 1000 * 2 ^ a) ∧
      (∀ j, j + 1 < (retryLoop oracle rem attempt).attempts.length →
        ∃ e, oracle (attempt + j) = Except.error e) ∧
      (retryLoop oracle rem attempt).outcome =
        oracle (attempt + ((retryLoop oracle rem attempt).attempts.length - 1)) ∧
      ((retryLoop oracle rem attempt).attempts.length < rem →
        ∃ res, (retryLoop oracle rem attempt).outcome = Except.ok res) := by
  intro rem
  induction rem with
  | zero => intro attempt h; exact absurd h (by simp)
  | succ n ih =>
    intro attempt _
    cases ho : oracle attempt with
    | ok res =>
      have hR : retryLoop oracle (n + 1) attempt = ⟨.ok res, [attempt], []⟩ := by
        unfold retryLoop
        rw [ho]
      rw [hR]
      refine ⟨by simp [List.range_succ], by simp, by simp, by simp, ?_, ?_, ?_⟩
      · intro j hj
        simp at hj
      · simpa using ho.symm
      · intro _
        exact ⟨res, rfl⟩
    | error e =>
      cases n with
      | zero =>
        have hR : retryLoop oracle 1 attempt = ⟨.error e, [attempt], []⟩ := by
          unfold retryLoop
          rw [ho]
        rw [hR]
        refine ⟨by simp [List.range_succ], by simp, by simp, by simp, ?_, ?_, ?_⟩
        · intro j hj
          simp at hj
        · simpa using ho.symm
        · intro hlt
          simp at hlt
      | succ m =>
        have hR : retryLoop oracle (m + 2) attempt =
            ⟨(retryLoop oracle (m + 1) (attempt + 1)).outcome,
             attempt :: (retryLoop oracle (m + 1) (attempt + 1)).attempts,
             1000 * 2 ^ attempt ::
               (retryLoop oracle (m + 1) (attempt + 1)).waits⟩ := by
          conv_lhs => rw [retryLoop]
          rw [ho]
        obtain ⟨ha, hpos, hlen, hw, hthrow, hout, hok⟩ :=
          ih (attempt + 1) (by omega)
        rw [hR]
        dsimp only
        refine ⟨?_, by simp, ?_, ?_, ?_, ?_, ?_⟩
        · simp only [List.length_cons, List.range_succ_eq_map, List.map_cons,
            Nat.zero_add, List.map_map]
          congr 1
          refine ha.trans (List.map_congr_left ?_)
          intro x _
          simp only [Function.comp_apply, Nat.succ_eq_add_one]
          omega
        · simp only [List.length_cons]
          omega
        · have hne : (retryLoop oracle (m + 1) (attempt + 1)).attempts ≠ [] :=
            List.ne_nil_of_length_pos hpos
          rw [List.dropLast_cons_of_ne_nil hne, List.map_cons, ← hw]
        · intro j hj
          cases j with
          | zero => exact ⟨e, by simpa using ho⟩
          | succ j' =>
            simp only [List.length_cons] at hj
            have hj' : j' + 1 <
                (retryLoop oracle (m + 1) (attempt + 1)).attempts.length := by
              omega
            obtain ⟨e', he'⟩ := hthrow j' hj'
            refine ⟨e', ?_⟩
            have hadd : attempt + (j' + 1) = attempt + 1 + j' := by omega
            rw [hadd]
            exact he'
        · simp only [List.length_cons, Nat.add_sub_cancel]
          have hadd : attempt + 1 +
              ((retryLoop oracle (m + 1) (attempt + 1)).attempts.length - 1) =
              attempt + (retryLoop oracle (m + 1) (attempt + 1)).attempts.length := by
            omega
          rw [hout, hadd]
        · intro hlt
          simp only [List.length_cons] at hlt
          exact hok (by omega)

/-- `lookupFromDatabase` characterization at attempt base 0. -/
theorem lookupFromDatabase_char (db : DatabaseConfig)
    (oracle : Nat → Except String LookupResult) :
    (lookupFromDatabase db oracle).attempts =
      List.range (lookupFromDatabase db oracle).attempts.length ∧
    0 < (lookupFromDatabase db oracle).attempts.length ∧
    (lookupFromDatabase db oracle).attempts.length ≤ db.retries + 1 ∧
    (lookupFromDatabase db oracle).waits =
      (lookupFromDatabase db oracle).attempts.dropLast.map
        (fun a => 1000 * 2 ^ a) ∧
    (∀ j, j + 1 < (lookupFromDatabase db oracle).attempts.length →
      ∃ e, oracle j = Except.error e) ∧
    (lookupFromDatabase db oracle).outcome =
      oracle ((lookupFromDatabase db oracle).attempts.length - 1) ∧
    ((lookupFromDatabase db oracle).attempts.length < db.retries + 1 →
      ∃ res, (lookupFromDatabase db oracle).outcome = Except.ok res) := by
  obtain ⟨ha, hpos, hlen, hw, hthrow, hout, hok⟩ :=
    retryLoop_char oracle (db.retries + 1) 0 (by omega)
  refine ⟨by simpa using ha, hpos, hlen, hw, ?_, by simpa using hout, hok⟩
  intro j hj
  have := hthrow j hj
  simpa using this

/-- When every attempt throws, the retry wrapper performs the full budget
of `retries + 1` attempts and rethrows the error of the final attempt. -/
theorem lookupFromDatabase_allFail (db : DatabaseConfig)
    (oracle : Nat → Except String LookupResult)
    (h : ∀ i, i ≤ db.retries → ∃ e, oracle i = Except.error e) :
    (lookupFromDatabase db oracle).attempts = List.range (db.retries + 1) ∧
    ∃ e, (lookupFromDatabase db oracle).outcome = Except.error e ∧
      oracle db.retries = Except.error e := by
  obtain ⟨ha, hpos, hlen, hw, hthrow, hout, hok⟩ := lookupFromDatabase_char db oracle
  have hL : (lookupFromDatabase db oracle).attempts.length = db.retries + 1 := by
    by_contra hne
    have hlt : (lookupFromDatabase db oracle).attempts.length < db.retries + 1 :=
      lt_of_le_of_ne hlen hne
    obtain ⟨res, hres⟩ := hok hlt
    obtain ⟨e, he⟩ :=
      h ((lookupFromDatabase db oracle).attempts.length - 1) (by omega)
    rw [hout, he] at hres
    exact Except.noConfusion hres
  refine ⟨by rw [← hL]; exact ha, ?_⟩
  obtain ⟨e, he⟩ := h db.retries le_rfl
  refine ⟨e, ?_, he⟩
  rw [hout, hL]
  simpa using he

theorem dbLoop_cons_error (oracle : String → Nat → Except String LookupResult)
    (st : IdKind) (sv : String) (key : String) (now : Int)
    (db : DatabaseConfig) (rest : List DatabaseConfig) (cache : Cache)
    (errors : List String) {e : String}
    (h : (lookupFromDatabase db (oracle db.name)).outcome = Except.error e) :
    (dbLoop oracle st sv key now (db :: rest) cache errors).attempts =
      (lookupFromDatabase db (oracle db.name)).attempts.map
        (fun a => (db.name, a)) ++
      (dbLoop oracle st sv key now rest cache
        (errors ++ [db.name ++ ": " ++ e])).attempts := by
  simp only [dbLoop]
  rw [h]

theorem dbLoop_single_attempts (oracle : String → Nat → Except String LookupResult)
    (st : IdKind) (sv : String) (key : String) (now : Int)
    (db : DatabaseConfig) (cache : Cache) (errors : List String) :
    (dbLoop oracle st sv key now [db] cache errors).attempts =
      (lookupFromDatabase db (oracle db.name)).attempts.map
        (fun a => (db.name, a)) := by
  simp only [dbLoop]
  cases h : (lookupFromDatabase db (oracle db.name)).outcome with
  | ok r =>
    cases hi : r.identifiers with
    | some ids =>
      cases hs : r.success with
      | true => simp [hi, hs]
      | false => simp [hi, hs]
    | none => simp [hi]
  | error e => simp

/-- Substring occurrence test (used to formalize "the error message names
the offending kind"). -/
def containsStr (s sub : String) : Bool :=
  (List.range (s.data.length + 1)).any
    (fun i => sub.data.isPrefixOf (s.data.drop i))

theorem data_append (x y : String) : (x ++ y).data = x.data ++ y.data := rfl

theorem containsStr_of_parts (s pre sub suf : String)
    (h : s.data = pre.data ++ (sub.data ++ suf.data)) :
    containsStr s sub = true := by
  unfold containsStr
  rw [List.any_eq_true]
  refine ⟨pre.data.length, ?_, ?_⟩
  · rw [List.mem_range, h]
    simp only [List.length_append]
    omega
  · rw [h, List.drop_left]
    exact List.isPrefixOf_iff_prefix.mpr (List.prefix_append _ _)

/-- A remote oracle on which every attempt of every database throws. -/
def noRemote : String → Nat → Except String LookupResult :=
  fun _ _ => .error "network unavailable"

/-- The identifier set returned by the hypothetical echo source of C1:
a differently-formatted echo of the requested SMILES. -/
def echoSet : IdentifierSet := { smiles := some "C(CCCCCCC)" }

/-- A remote source that succeeds immediately with `echoSet`. -/
def echoOracle : String → Nat → Except String LookupResult :=
  fun _ _ => .ok { success := true, identifiers := some echoSet }

/-- A per-attempt oracle whose first attempt returns an unsuccessful (but
non-throwing) result and whose later attempts would return a successful,
non-empty result. -/
def failThenOk : Nat → Except String LookupResult :=
  fun n =>
    if n = 0 then
      .ok { success := false,
            error := some "Could not find compound in PubChem database" }
    else .ok { success := true, identifiers := some ethanolSet }

/-- A full identifier set (all twelve fields populated). -/
def fullTestSet : IdentifierSet :=
  { iupacName := some "ethanol", casNumber := some "64-17-5"
    chemSpider := some "682", echaInfoCard := some "100.000.526"
    ecNumber := some "200-578-6", eNumber := some "E1510"
    pubchemCID := some "702", rtecsNumber := some "KQ6300000"
    unii := some "3K9958V90M", compToxDashboard := some "DTXSID9020584"
    inchi := some "InChI=1S/C2H6O/c1-2-3/h3H,2H2,1H3", smiles := some "CCO" }

/-- C1 (counterexample): `lookupChemicalIdentifiers` does not pin the
requested field to the caller's raw input.  Resolving kind `smiles`,
value `"CCCCCCCC"` (absent from the local table) against a remote source
that returns a differently-formatted echo yields a successful result
whose `smiles` field is the source's echo, not the raw input. -/
theorem C1_counterexample :
    (lookupChemicalIdentifiers .smiles "CCCCCCCC" [] 0 echoOracle).result.success
      = true ∧
    ((lookupChemicalIdentifiers .smiles "CCCCCCCC" [] 0 echoOracle).result.identifiers.bind
      (fun s => s.get .smiles)) = some "C(CCCCCCC)" ∧
    (some "C(CCCCCCC)" : Option String) ≠ some "CCCCCCCC" :=
  ⟨by decide, by decide, by decide⟩

/-- C1 (amended): the pinning invariant lives in the application layer,
not in `lookupChemicalIdentifiers`: the merge
`{ ...prev, ...found, [field]: value }` performed by `handleInputChange`
always maps the requested field to the caller's original raw value, and
every other field to the looked-up value when present (falling back to
the previous UI state). -/
theorem C1_amended (prev : IdKind → String) (found : IdentifierSet)
    (field : IdKind) (value : String) :
    appMergeStep prev found field value field = value ∧
    ∀ k, k ≠ field →
      appMergeStep prev found field value k = (found.get k).getD (prev k) := by
  constructor
  · simp [appMergeStep]
  · intro k hk
    simp only [appMergeStep, if_neg hk]
    cases found.get k <;> simp

/-- C1 (witness): the amended merge theorem at a concrete input. -/
theorem C1_witness :
    appMergeStep (fun _ => "") echoSet .smiles "CCO" .smiles = "CCO" :=
  (C1_amended (fun _ => "") echoSet .smiles "CCO").1

/-- C2: for every non-empty identifier set and requested kind, the
confidence score equals
`max (min (min (count/8) 1 + (0.2 if the requested field is populated)) 1) 0.3`;
consequently it is at least 0.3, and a set with all twelve fields
populated scores exactly 1. -/
theorem C2_confidence_formula (s : IdentifierSet) (k : IdKind)
    (h : 0 < s.count) :
    calculateConfidence s k =
      max (min (min ((s.count : ℚ) / 8) 1 +
        (if truthy (s.get k) then 2/10 else 0)) 1) (3/10) ∧
    3/10 ≤ calculateConfidence s k ∧
    (s.count = 12 → calculateConfidence s k = 1) := by
  refine ⟨?_, ?_, ?_⟩
  · unfold calculateConfidence
    cases ht : truthy (s.get k) with
    | true => simp
    | false =>
      simp only [Bool.false_eq_true, if_false, add_zero]
      rw [min_eq_left (min_le_right _ _)]
  · unfold calculateConfidence
    exact le_max_right _ _
  · intro h12
    unfold calculateConfidence
    rw [h12]
    cases ht : truthy (s.get k) with
    | true =>
      simp only [if_true]
      norm_num
    | false =>
      simp only [Bool.false_eq_true, if_false]
      norm_num

/-- C2 (witness): a full twelve-field set scores exactly 1. -/
theorem C2_witness : calculateConfidence fullTestSet .smiles = 1 :=
  (C2_confidence_formula fullTestSet .smiles (by decide)).2.2 (by decide)

/-- C9: the 0.3 floor is unconditional: every identifier set (empty
included) scores in [0.3, 1], and the empty set scores exactly 0.3. -/
theorem C9_confidence_bounds (s : IdentifierSet) (k : IdKind) :
    3/10 ≤ calculateConfidence s k ∧ calculateConfidence s k ≤ 1 ∧
    (s.count = 0 → calculateConfidence s k = 3/10) := by
  refine ⟨?_, ?_, ?_⟩
  · unfold calculateConfidence
    exact le_max_right _ _
  · unfold calculateConfidence
    apply max_le
    · cases ht : truthy (s.get k) with
      | true =>
        simp only [if_true]
        exact min_le_right _ _
      | false =>
        simp only [Bool.false_eq_true, if_false]
        exact min_le_right _ _
    · norm_num
  · intro h0
    have hget : s.get k = none := by
      have hmem : s.get k ∈ s.fieldList := by
        cases k <;> simp [IdentifierSet.fieldList, IdentifierSet.get]
      have hno := (List.countP_eq_zero.mp h0) _ hmem
      cases hg : s.get k with
      | none => rfl
      | some v =>
        rw [hg] at hno
        simp at hno
    unfold calculateConfidence
    rw [hget, h0]
    simp only [truthy, Bool.false_eq_true, if_false]
    norm_num [min_def, max_def]

/-- C9 (witness): the empty set scores exactly 0.3. -/
theorem C9_witness : calculateConfidence {} .smiles = 3/10 :=
  (C9_confidence_bounds {} .smiles).2.2 (by decide)

/-- C3: cache round-trip with TTL.  After writing a set under a key, the
cache-hit step of the lookup returns it as a hit — source suffixed
`" (cached)"` and confidence 1 — exactly when `now - createdAt` is below
the one-hour TTL, and treats it as a miss otherwise, with no sweep
involved. -/
theorem C3_cache_roundtrip (cache : Cache) (k : IdKind) (v : String)
    (S : IdentifierSet) (src : String) (t now : Int) :
    cacheCheck (cacheSet cache (getCacheKey k v) ⟨S, t, src⟩)
      (getCacheKey k v) now =
      if now - t < CACHE_DURATION then
        some { success := true, identifiers := some S,
               source := some (src ++ " (cached)"), confidence := some 1 }
      else none := by
  unfold cacheCheck cacheGet cacheSet
  rw [List.find?_cons_of_pos _ (by simp)]
  by_cases hlt : now - t < CACHE_DURATION
  · rw [if_pos hlt]
    simp only [Option.map_some']
    have hv : isCacheValid now t = true := by
      simp [isCacheValid, hlt]
    simp [hv]
  · rw [if_neg hlt]
    simp only [Option.map_some']
    have hv : isCacheValid now t = false := by
      simp [isCacheValid, hlt]
    simp [hv]

/-- C4 (counterexample): the empty-input failure does not name the
offending kind: its error text is the fixed string
`"Empty identifier provided"`, which does not contain the kind name. -/
theorem C4_counterexample :
    (lookupChemicalIdentifiers .iupacName "" [] 0 noRemote).result.success
      = false ∧
    (lookupChemicalIdentifiers .iupacName "" [] 0 noRemote).result.error =
      some "Empty identifier provided" ∧
    containsStr "Empty identifier provided" (kindName .iupacName) = false :=
  ⟨by decide, by decide, by decide⟩

/-- C4 (amended): each validation failure — empty input, implausible
input, format mismatch — returns an unsuccessful result before any cache
read, cache write, or remote attempt (the outcome is independent of the
cache and the oracle, the cache is returned unchanged, and the remote
trace is empty); the plausibility and format failures name the offending
kind in their message, while the empty-input failure uses the fixed
message `"Empty identifier provided"`. -/
theorem C4_amended (kind : IdKind) (value : String) (cache : Cache)
    (now : Int) (oracle : String → Nat → Except String LookupResult) :
    (jsTrim value = "" →
      lookupChemicalIdentifiers kind value cache now oracle =
        ⟨{ success := false, error := some "Empty identifier provided" },
         cache, []⟩) ∧
    (jsTrim value ≠ "" → isReasonableInput kind value = false →
      lookupChemicalIdentifiers kind value cache now oracle =
        ⟨{ success := false
           error := some ("Invalid " ++ kindName kind ++
             ". Please enter a valid chemical identifier.") }, cache, []⟩ ∧
      containsStr ("Invalid " ++ kindName kind ++
        ". Please enter a valid chemical identifier.") (kindName kind) = true) ∧
    (jsTrim value ≠ "" → isReasonableInput kind value = true →
      validateIdentifier kind (normalizeIdentifier kind value) = false →
      lookupChemicalIdentifiers kind value cache now oracle =
        ⟨{ success := false
           error := some ("Invalid format for " ++ kindName kind ++ ": " ++
             value) }, cache, []⟩ ∧
      containsStr ("Invalid format for " ++ kindName kind ++ ": " ++ value)
        (kindName kind) = true) := by
  refine ⟨?_, ?_, ?_⟩
  · intro h
    simp only [lookupChemicalIdentifiers]
    rw [if_pos (show (jsTrim value == "") = true by simp [h])]
  · intro h1 h2
    refine ⟨?_, ?_⟩
    · simp only [lookupChemicalIdentifiers]
      rw [if_neg (show ¬((jsTrim value == "") = true) by simp [h1]),
        if_pos (show (!isReasonableInput kind value) = true by simp [h2])]
    · exact containsStr_of_parts _ "Invalid " _
        ". Please enter a valid chemical identifier."
        (by simp [data_append, List.append_assoc])
  · intro h1 h2 h3
    refine ⟨?_, ?_⟩
    · simp only [lookupChemicalIdentifiers]
      rw [if_neg (show ¬((jsTrim value == "") = true) by simp [h1]),
        if_neg (show ¬((!isReasonableInput kind value) = true) by simp [h2]),
        if_pos (show (!validateIdentifier kind (normalizeIdentifier kind value))
          = true by simp [h3])]
    · exact containsStr_of_parts _ "Invalid format for " _ (": " ++ value)
        (by simp [data_append, List.append_assoc])

/-- C4 (witness): the amended theorem at the implausible input `"xz"`. -/
theorem C4_witness :
    lookupChemicalIdentifiers .iupacName "xz" [] 0 noRemote =
      ⟨{ success := false
         error := some ("Invalid " ++ kindName .iupacName ++
           ". Please enter a valid chemical identifier.") }, [], []⟩ :=
  ((C4_amended .iupacName "xz" [] 0 noRemote).2.1 (by decide) (by decide)).1

/-- C5 (counterexample): the retry wrapper does not return the first
successful, non-empty result: with an oracle whose attempt 0 completes
with an unsuccessful result and whose attempt 1 would succeed with a
non-empty set, `lookupFromDatabase` stops after one attempt and returns
the unsuccessful result. -/
theorem C5_counterexample :
    (lookupFromDatabase pubchemConfig failThenOk).outcome =
      Except.ok { success := false
                  error := some "Could not find compound in PubChem database" } ∧
    (lookupFromDatabase pubchemConfig failThenOk).attempts = [0] ∧
    failThenOk 1 =
      Except.ok { success := true, identifiers := some ethanolSet } :=
  ⟨rfl, rfl, rfl⟩

/-- C5 (amended): the retry wrapper makes between 1 and `retries + 1`
attempts (consecutive indices from 0), waits `1000 * 2 ^ i` after every
non-final attempt `i` and never after the final one, throws on every
non-final attempt, returns the result of the final attempt — whether or
not that result is successful or non-empty — and stops early only when
an attempt completes without throwing; an all-throwing run therefore
propagates the final attempt's error verbatim. -/
theorem C5_amended (db : DatabaseConfig)
    (oracle : Nat → Except String LookupResult) :
    (lookupFromDatabase db oracle).attempts =
      List.range (lookupFromDatabase db oracle).attempts.length ∧
    0 < (lookupFromDatabase db oracle).attempts.length ∧
    (lookupFromDatabase db oracle).attempts.length ≤ db.retries + 1 ∧
    (lookupFromDatabase db oracle).waits =
      (lookupFromDatabase db oracle).attempts.dropLast.map
        (fun a => 1000 * 2 ^ a) ∧
    (∀ j, j + 1 < (lookupFromDatabase db oracle).attempts.length →
      ∃ e, oracle j = Except.error e) ∧
    (lookupFromDatabase db oracle).outcome =
      oracle ((lookupFromDatabase db oracle).attempts.length - 1) ∧
    ((lookupFromDatabase db oracle).attempts.length < db.retries + 1 →
      ∃ res, (lookupFromDatabase db oracle).outcome = Except.ok res) :=
  lookupFromDatabase_char db oracle

/-- C5 (witness): the amended theorem at the concrete oracle of the
counterexample. -/
theorem C5_witness :
    (lookupFromDatabase pubchemConfig failThenOk).attempts.length ≤
      pubchemConfig.retries + 1 :=
  (C5_amended pubchemConfig failThenOk).2.2.1

/-- C6: remote sources are attempted strictly in descending priority
order: the configured list sorts to PubChem (priority 10) before
NCI/CACTUS (priority 6); when every PubChem attempt throws, the trace is
exactly PubChem's full three-attempt budget followed by one
`lookupFromDatabase` run against NCI/CACTUS with its own budget of at
most two attempts — the lower-priority source is never queried before
the higher-priority one has exhausted its retries. -/
theorem C6_priority_order (oracle : String → Nat → Except String LookupResult)
    (st : IdKind) (sv key : String) (now : Int) (cache : Cache)
    (errors : List String)
    (hfail : ∀ i, i ≤ pubchemConfig.retries →
      ∃ e, oracle "PubChem" i = Except.error e) :
    sortedDatabases = [pubchemConfig, nciConfig] ∧
    (dbLoop oracle st sv key now sortedDatabases cache errors).attempts =
      [("PubChem", 0), ("PubChem", 1), ("PubChem", 2)] ++
        (lookupFromDatabase nciConfig (oracle "NCI/CACTUS")).attempts.map
          (fun a => ("NCI/CACTUS", a)) ∧
    0 < (lookupFromDatabase nciConfig (oracle "NCI/CACTUS")).attempts.length ∧
    (lookupFromDatabase nciConfig (oracle "NCI/CACTUS")).attempts.length ≤
      nciConfig.retries + 1 := by
  have hsorted : sortedDatabases = [pubchemConfig, nciConfig] := rfl
  obtain ⟨hatt, e, hout, -⟩ :=
    lookupFromDatabase_allFail pubchemConfig (oracle "PubChem") hfail
  obtain ⟨-, hpos, hlen, -⟩ :=
    lookupFromDatabase_char nciConfig (oracle "NCI/CACTUS")
  refine ⟨hsorted, ?_, hpos, hlen⟩
  rw [hsorted, dbLoop_cons_error oracle st sv key now pubchemConfig
    [nciConfig] cache errors hout]
  rw [dbLoop_single_attempts,
    show pubchemConfig.name = "PubChem" from rfl,
    show nciConfig.name = "NCI/CACTUS" from rfl, hatt]
  rfl

/-- C6 (witness): with an all-throwing oracle the full trace is PubChem's
three attempts followed by NCI/CACTUS's two. -/
theorem C6_witness :
    (dbLoop noRemote .smiles "octane" "k" 0 sortedDatabases [] []).attempts =
      [("PubChem", 0), ("PubChem", 1), ("PubChem", 2),
       ("NCI/CACTUS", 0), ("NCI/CACTUS", 1)] := by
  have h := C6_priority_order noRemote .smiles "octane" "k" 0 [] []
    (fun i _ => ⟨"network unavailable", rfl⟩)
  rw [h.2.1]
  rfl

/-- C7 (counterexample): the format check accepts `"0"` for the
database-ID kinds (the pattern is `/^\d+$/`, with no non-zero
requirement). -/
theorem C7_counterexample : validateIdentifier .pubchemCID "0" = true := by
  decide

/-- C7 (amended): for the database-ID kinds, `validateIdentifier` accepts
exactly the strings whose normalized form is a non-empty digit run —
`"0"` included; the non-zero requirement is enforced separately by the
plausibility check `isReasonableInput`, which rejects `"0"` and `"00"`. -/
theorem C7_amended :
    (∀ v, validateIdentifier .pubchemCID v = true ↔
      ((normalizeIdentifier .pubchemCID v).data ≠ [] ∧
        ∀ c ∈ (normalizeIdentifier .pubchemCID v).data, c.isDigit = true)) ∧
    (∀ v, validateIdentifier .chemSpider v = true ↔
      ((normalizeIdentifier .chemSpider v).data ≠ [] ∧
        ∀ c ∈ (normalizeIdentifier .chemSpider v).data, c.isDigit = true)) ∧
    validateIdentifier .pubchemCID "0" = true ∧
    isReasonableInput .pubchemCID "0" = false ∧
    isReasonableInput .pubchemCID "00" = false ∧
    isReasonableInput .chemSpider "0" = false := by
  refine ⟨?_, ?_, by decide, by decide, by decide, by decide⟩ <;>
    (intro v
     simp [validateIdentifier, VALIDATION_PATTERNS, digitsPat, allDigits,
       List.all_eq_true, List.isEmpty_iff])

/-- C7 (witness): the amended characterization at a concrete input. -/
theorem C7_witness : validateIdentifier .pubchemCID "007" = true :=
  (C7_amended.1 "007").mpr (by decide)

/-- C8 (counterexample): normalization is not idempotent for the
database-ID kinds and the CompTox kind: a second pass strips a further
prefix exposed by the first. -/
theorem C8_counterexample :
    normalizeIdentifier .pubchemCID (normalizeIdentifier .pubchemCID "CIDCID5")
      ≠ normalizeIdentifier .pubchemCID "CIDCID5" ∧
    normalizeIdentifier .pubchemCID "CIDCID5" = "CID5" ∧
    normalizeIdentifier .pubchemCID "CID5" = "5" ∧
    normalizeIdentifier .chemSpider "CSIDCSID7" = "CSID7" ∧
    normalizeIdentifier .chemSpider "CSID7" = "7" ∧
    normalizeIdentifier .compToxDashboard "DTXSID::5" = "DTXSID:5" ∧
    normalizeIdentifier .compToxDashboard "DTXSID:5" = "DTXSID5" :=
  ⟨by decide, rfl, rfl, rfl, rfl, rfl, rfl⟩

/-- C8 (amended): normalization is total by construction and idempotent
for every kind except `pubchemCID`, `chemSpider` and
`compToxDashboard`. -/
theorem C8_amended (t : IdKind) (v : String) (h1 : t ≠ .pubchemCID)
    (h2 : t ≠ .chemSpider) (h3 : t ≠ .compToxDashboard) :
    normalizeIdentifier t (normalizeIdentifier t v) =
      normalizeIdentifier t v :=
  normalizeIdentifier_idem t v h1 h2 h3

/-- C8 (witness): idempotence at a concrete CAS input that gets
re-hyphenated on the first pass. -/
theorem C8_witness :
    normalizeIdentifier .casNumber (normalizeIdentifier .casNumber " 12345678 ")
      = normalizeIdentifier .casNumber " 12345678 " :=
  C8_amended .casNumber " 12345678 " (by decide) (by decide) (by decide)

/-- C10 (counterexample): format validation is not invariant under
normalization for the database-ID kinds: `"CIDCID5"` fails the format
check while its normalization `"CID5"` passes it. -/
theorem C10_counterexample :
    validateIdentifier .pubchemCID "CIDCID5" = false ∧
    validateIdentifier .pubchemCID
      (normalizeIdentifier .pubchemCID "CIDCID5") = true :=
  ⟨by decide, by decide⟩

/-- C10 (amended): format validation is invariant under normalization for
every kind except `pubchemCID`, `chemSpider` and `compToxDashboard`,
because `validateIdentifier` normalizes its argument and normalization is
idempotent for those kinds. -/
theorem C10_amended (t : IdKind) (v : String) (h1 : t ≠ .pubchemCID)
    (h2 : t ≠ .chemSpider) (h3 : t ≠ .compToxDashboard) :
    validateIdentifier t v =
      validateIdentifier t (normalizeIdentifier t v) := by
  unfold validateIdentifier
  cases hp : VALIDATION_PATTERNS t with
  | none => rfl
  | some p => rw [normalizeIdentifier_idem t v h1 h2 h3]

/-- C10 (witness): invariance at a concrete SMILES input. -/
theorem C10_witness :
    validateIdentifier .smiles " CCO " =
      validateIdentifier .smiles (normalizeIdentifier .smiles " CCO ") :=
  C10_amended .smiles " CCO " (by decide) (by decide) (by decide)

end Modelcules
